import Mathlib

/-!
Shallow embedding of `kamodo_ccmc/readers/verb3d_tocdf.py` (VERB code model
reader data converter) and proofs about it.

Modelling conventions:
* Array values are real numbers; the float32/float64 storage class of each
  NetCDF variable is recorded as a `DType` tag.  Numeric relations are proved
  over the real-valued semantics.
* The external collaborators (`pyverbplt.load_plt`, `rbamlib.conv.en2mu`,
  `rbamlib.conv.Lal2K`, pandas float literal parsing, `RU._isfile`,
  `RU.create_timelist`, `json.load`) are opaque: the environment `Env` carries
  the data they would return.  `RU.create_timelist` is modelled by recording
  the full argument list of the call (`CatalogCall`).
* File-system effects are modelled as an ordered write trace:
  `RunResult.writes` is the list of NetCDF files created (path and contents,
  in creation order), `RunResult.catalog` the catalog-writer call (producing
  the two index files), and `RunResult.outcome` distinguishes a normal `True`
  return (`ok`), the `False` return on missing inputs (`fail`), and an
  uncaught Python exception (`exc`).
* String scanning from the source (the `re.search` start-time pattern,
  `str.strip`, `str.split`, `re.findall` of quoted names, whitespace
  tokenisation) is re-implemented faithfully over `List Char`.
-/

namespace Verb3D

/-- A timezone-naive calendar timestamp (the fields of a Python `datetime`
that this program ever sets; seconds and below are always zero here). -/
structure DateTime where
  year : ℕ
  month : ℕ
  day : ℕ
  hour : ℕ
  minute : ℕ
deriving DecidableEq

/-- `datetime(1970, 1, 1)`, the default start date of `get_start_date`. -/
def epochDT : DateTime := ⟨1970, 1, 1, 0, 0⟩

/-- Python regex `\s` character class (whitespace). -/
def isPySpace (c : Char) : Bool :=
  c = ' ' || c = '\t' || c = '\n' || c = '\r' || c = Char.ofNat 11 || c = Char.ofNat 12

/-- `str.strip()`: remove leading and trailing whitespace. -/
def pyStrip (s : List Char) : List Char :=
  ((s.dropWhile isPySpace).reverse.dropWhile isPySpace).reverse

/-- `str.split(sep)` for a one-character separator: split at every occurrence,
keeping empty pieces. -/
def splitOnChar (sep : Char) : List Char → List (List Char)
  | [] => [[]]
  | a :: rest =>
    let r := splitOnChar sep rest
    if a = sep then [] :: r
    else
      match r with
      | h :: t => (a :: h) :: t
      | [] => [[a]]

/-- After the date-time portion of the `DatabaseInfo1` pattern: the remaining
whitespace of `\s+` followed by the literal marker `# start_time`. -/
def markerAfterWs : List Char → Bool
  | [] => false
  | l@(c :: rest) =>
    if isPySpace c then markerAfterWs rest
    else List.isPrefixOf ("# start_time").data l

/-- `\s+# start_time`: at least one whitespace character, then the marker. -/
def matchMarker : List Char → Bool
  | [] => false
  | c :: rest => isPySpace c && markerAfterWs rest

/-- Attempt to match `(\d{4}/\d{2}/\d{2} \d{2}:\d{2})\s+# start_time` at the
head of the character list; on success return the 16 captured characters. -/
def matchAt : List Char → Option (List Char)
  | y1 :: y2 :: y3 :: y4 :: '/' :: m1 :: m2 :: '/' :: d1 :: d2 :: ' ' ::
      h1 :: h2 :: ':' :: n1 :: n2 :: rest =>
    if y1.isDigit && y2.isDigit && y3.isDigit && y4.isDigit &&
       m1.isDigit && m2.isDigit && d1.isDigit && d2.isDigit &&
       h1.isDigit && h2.isDigit && n1.isDigit && n2.isDigit &&
       matchMarker rest then
      some [y1, y2, y3, y4, '/', m1, m2, '/', d1, d2, ' ', h1, h2, ':', n1, n2]
    else none
  | _ => none

/-- `re.search` of the start-time pattern over one line: try the pattern at
every position, leftmost match wins. -/
def searchLine : List Char → Option (List Char)
  | [] => none
  | l@(_ :: rest) =>
    match matchAt l with
    | some d => some d
    | none => searchLine rest

/-- Numeric value of a decimal digit character. -/
def digitVal (c : Char) : ℕ := c.toNat - ('0').toNat

/-- Gregorian leap year (as validated by Python `datetime`). -/
def isLeap (y : ℕ) : Bool := (y % 4 = 0 && y % 100 ≠ 0) || y % 400 = 0

/-- Days in a month, used by `datetime`'s range validation. -/
def daysInMonth (y m : ℕ) : ℕ :=
  if m = 2 then (if isLeap y then 29 else 28)
  else if m = 4 || m = 6 || m = 9 || m = 11 then 30
  else 31

/-- `datetime.strptime(s, '%Y/%m/%d %H:%M')` on the 16 characters captured by
the regex: extract the fields and validate ranges; `none` models the
`ValueError` raised on an out-of-range component. -/
def parseDT : List Char → Option DateTime
  | [y1, y2, y3, y4, _, m1, m2, _, d1, d2, _, h1, h2, _, n1, n2] =>
    let y := 1000 * digitVal y1 + 100 * digitVal y2 + 10 * digitVal y3 + digitVal y4
    let mo := 10 * digitVal m1 + digitVal m2
    let d := 10 * digitVal d1 + digitVal d2
    let h := 10 * digitVal h1 + digitVal h2
    let mi := 10 * digitVal n1 + digitVal n2
    if 1 ≤ y && 1 ≤ mo && mo ≤ 12 && 1 ≤ d && d ≤ daysInMonth y mo &&
       h ≤ 23 && mi ≤ 59 then
      some ⟨y, mo, d, h, mi⟩
    else none
  | _ => none

/-- The `DatabaseInfo1` scanning loop: every line is searched for the
start-time pattern, each match is parsed and replaces the accumulator (so the
last matching line wins); `none` models an uncaught `ValueError` from
`strptime`. -/
def scanDatabase : List String → DateTime → Option DateTime
  | [], acc => some acc
  | l :: ls, acc =>
    match searchLine l.data with
    | none => scanDatabase ls acc
    | some ds =>
      match parseDT ds with
      | none => none
      | some d => scanDatabase ls d

/-- A 3-D array: a shape and a total valuation (entries outside the shape are
never read). -/
structure Arr3 where
  s1 : ℕ
  s2 : ℕ
  s3 : ℕ
  val : ℕ → ℕ → ℕ → ℝ

/-- A 4-D array (the PSD series), leading axis is time. -/
structure Arr4 where
  s0 : ℕ
  s1 : ℕ
  s2 : ℕ
  s3 : ℕ
  val : ℕ → ℕ → ℕ → ℕ → ℝ

/-- Storage class of a NetCDF variable (`np.float32` / `np.float64`). -/
inductive DType where
  | f32
  | f64
deriving DecidableEq

/-- One NetCDF variable: name, storage class, declared dimension labels, and
the stored values in row-major order. -/
structure NCVar where
  name : String
  dtype : DType
  dims : List String
  data : List ℝ

/-- One NetCDF file: dimensions (name, length) and variables, each in
creation order. -/
structure NCFile where
  dims : List (String × ℕ)
  vars : List NCVar

/-- The environment of one `convert_all` run: the directory path, which input
files exist, what the opaque loaders and libraries return, and the metadata
sources seen by `get_start_date`. -/
structure Env where
  file_dir : String
  hasPerpGrid : Bool
  hasPSD : Bool
  hasOut1d : Bool
  gridL : Arr3
  gridE : Arr3
  gridAlphaRad : Arr3
  gridPc : Arr3
  psdArr : Arr4
  psdZone : List ℝ
  out1dLines : List String
  parseFloat : String → ℝ
  en2mu : Arr3 → Arr3 → Arr3 → Arr3
  lal2K : Arr3 → Arr3 → Arr3
  hasDatabaseInfo : Bool
  databaseLines : List String
  hasRorDir : Bool
  rorDirStart : Option DateTime
  hasRorParent : Bool
  rorParentStart : Option DateTime

/-- `get_start_date`: default `datetime(1970,1,1)`; if `../DatabaseInfo1`
exists, scan it line by line for the start-time pattern (last match wins,
a `ValueError` from `strptime` propagates, modelled by `none`); then look for
`ror_metadata.json` in the directory, else in its parent, and when found and
its `simulationStartTime` field is set, that value overrides whatever the
legacy file produced. -/
def get_start_date (env : Env) : Option DateTime :=
  let afterDB : Option DateTime :=
    if env.hasDatabaseInfo then scanDatabase env.databaseLines epochDT
    else some epochDT
  match afterDB with
  | none => none
  | some d1 =>
    let metadata : Option (Option DateTime) :=
      if env.hasRorDir then some env.rorDirStart
      else if env.hasRorParent then some env.rorParentStart
      else none
    match metadata with
    | none => some d1
    | some none => some d1
    | some (some m) => some m

/-- Whitespace tokenisation of one line (pandas `sep='\s+'`): maximal runs of
non-whitespace characters, leading/trailing whitespace ignored. -/
def splitWsGo : List Char → List Char → List String
  | [], cur => if cur = [] then [] else [String.mk cur.reverse]
  | c :: rest, cur =>
    if isPySpace c then
      if cur = [] then splitWsGo rest []
      else String.mk cur.reverse :: splitWsGo rest []
    else splitWsGo rest (c :: cur)

/-- Tokenise a line on whitespace. -/
def splitWs (s : String) : List String := splitWsGo s.data []

/-- `re.findall(r'"([^"]*)"', s)`: the contents of every (non-overlapping)
pair of double quotes, left to right; an unterminated final quote matches
nothing. -/
def findQuotedGo : List Char → Option (List Char) → List String
  | [], _ => []
  | c :: rest, none =>
    if c = '"' then findQuotedGo rest (some []) else findQuotedGo rest none
  | c :: rest, some cur =>
    if c = '"' then String.mk cur.reverse :: findQuotedGo rest none
    else findQuotedGo rest (some (c :: cur))

/-- All quoted substrings of a line. -/
def findQuoted (s : List Char) : List String := findQuotedGo s none

/-- The header scan of `out1d.dat`: the first line that (after `strip`)
starts with `Variables` is split on `=`; the quoted names in the part after
the first `=` are the variable names.  `none` models the `NameError`
(no such line) or `IndexError` (no `=` in the line) the source would raise. -/
def extractVariables (lines : List String) : Option (List String) :=
  match lines.find? (fun l => List.isPrefixOf ("Variables").data (pyStrip l.data)) with
  | none => none
  | some l =>
    match (splitOnChar '=' (pyStrip l.data)).get? 1 with
    | none => none
    | some s => some (findQuoted (pyStrip s))

/-- `bool` check that a list of names has no duplicates (a duplicate name
would make the source raise when creating the same NetCDF variable twice). -/
def nodupB : List String → Bool
  | [] => true
  | x :: xs => !(xs.contains x) && nodupB xs

/-- The numeric table of `out1d.dat` as pandas reads it: skip the first two
lines, drop blank lines, tokenise each remaining line on whitespace and parse
every token as a number (the literal-to-number conversion is the opaque
`env.parseFloat`). -/
def out1dTable (env : Env) : List (List ℝ) :=
  ((env.out1dLines.drop 2).filter (fun l => !(pyStrip l.data).isEmpty)).map
    (fun l => (splitWs l).map env.parseFloat)

/-- Well-formedness that the source needs to get through the `out1d` block
without raising: a non-empty table, every row as wide as the variable list
(`df.columns = variables`), and distinct variable names. -/
def out1dOk (env : Env) (vs : List String) : Bool :=
  !(out1dTable env).isEmpty &&
    (out1dTable env).all (fun r => r.length == vs.length) && nodupB vs

/-- `os.path.join` for a relative second component. -/
def pathJoin (d n : String) : String :=
  if d = "" then n
  else if d.data.getLast? = some '/' then d ++ n else d ++ "/" ++ n

/-- `p` lies inside directory `d`: the path begins with the directory
followed by a separator. -/
def insideDir (d p : String) : Bool :=
  List.isPrefixOf (if d.data.getLast? = some '/' then d else d ++ "/").data p.data

/-- Path of the grid output unit. -/
def gridPath (env : Env) : String := pathJoin env.file_dir ("perp_grid.nc")

/-- Path of the per-timestep flux/PSD output unit for timestep `t`. -/
def fluxPath (env : Env) (t : ℕ) : String :=
  pathJoin env.file_dir ("OutPSD_Flux" ++ toString t ++ ".nc")

/-- Path of the per-timestep alternate-coordinate output unit for `t`. -/
def lmkPath (env : Env) (t : ℕ) : String :=
  pathJoin env.file_dir ("OutPSD_lmk" ++ toString t ++ ".nc")

/-- Path of the scalar time-series output unit. -/
def out1dPath (env : Env) : String := pathJoin env.file_dir ("out1d.nc")

/-- Row-major flattening of a 3-D valuation over a given shape. -/
def flat3 (n1 n2 n3 : ℕ) (f : ℕ → ℕ → ℕ → ℝ) : List ℝ :=
  (List.range n1).flatMap fun i =>
    (List.range n2).flatMap fun j =>
      (List.range n3).map fun k => f i j k

/-- `units_constant = 1 / 3e7` (`(c/MeV/cm)^3` normalisation). -/
noncomputable def units_constant : ℝ := 1 / (3 * 10 ^ 7)

/-- `np.rad2deg`: multiply by `180 / π`. -/
noncomputable def rad2deg (x : ℝ) : ℝ := x * (180 / Real.pi)

/-- The grid output unit `perp_grid.nc`: dimensions from the shape of the
first grid array; the four loaded arrays (angular axis converted to degrees)
plus the derived `Mu` and `K`, which are computed from the *radian* angular
axis, all stored as 32-bit floats over dims `(L, E, Alpha)`. -/
noncomputable def gridNC (env : Env) : NCFile :=
  let sh := env.gridL
  let mu := env.en2mu env.gridE env.gridL env.gridAlphaRad
  let kArr := env.lal2K env.gridL env.gridAlphaRad
  { dims := [("L", sh.s1), ("E", sh.s2), ("Alpha", sh.s3)],
    vars := [
      ⟨"L", .f32, ["L", "E", "Alpha"], flat3 sh.s1 sh.s2 sh.s3 env.gridL.val⟩,
      ⟨"E", .f32, ["L", "E", "Alpha"], flat3 sh.s1 sh.s2 sh.s3 env.gridE.val⟩,
      ⟨"Alpha", .f32, ["L", "E", "Alpha"],
        flat3 sh.s1 sh.s2 sh.s3 (fun i j k => rad2deg (env.gridAlphaRad.val i j k))⟩,
      ⟨"pc", .f32, ["L", "E", "Alpha"], flat3 sh.s1 sh.s2 sh.s3 env.gridPc.val⟩,
      ⟨"Mu", .f32, ["L", "E", "Alpha"], flat3 sh.s1 sh.s2 sh.s3 mu.val⟩,
      ⟨"K", .f32, ["L", "E", "Alpha"], flat3 sh.s1 sh.s2 sh.s3 kArr.val⟩] }

/-- The per-timestep file `OutPSD_Flux{t}.nc`: `PSD` is the raw density slice
scaled by `units_constant`; `Flux` is the raw density slice times the square
of the grid's `pc` (the unit time axis prepended by `expand_dims` collapses
again on assignment into the `(L, E, Alpha)` variable); `time` holds
`zone[t]`.  The source indexes `time[t]` with `t` below the loop bound
`arr.shape[0]`; `getD _ 0` realises that in-range access (the spec's data
model guarantees `len(zone) == arr.shape[0]`; on shorter `zone` the source
would raise `IndexError` instead). -/
noncomputable def fluxNC (env : Env) (t : ℕ) : NCFile :=
  let a := env.psdArr
  { dims := [("time", 1), ("L", a.s1), ("E", a.s2), ("Alpha", a.s3)],
    vars := [
      ⟨"PSD", .f32, ["L", "E", "Alpha"],
        flat3 a.s1 a.s2 a.s3 (fun i j k => a.val t i j k * units_constant)⟩,
      ⟨"Flux", .f32, ["L", "E", "Alpha"],
        flat3 a.s1 a.s2 a.s3 (fun i j k => a.val t i j k * env.gridPc.val i j k ^ 2)⟩,
      ⟨"time", .f32, ["time"], [env.psdZone.getD t 0]⟩] }

/-- The per-timestep file `OutPSD_lmk{t}.nc`: the same scaled density slice
as `PSD`, relabelled `PSD_2` over dims `(L, Mu, K)`, and the same `time`. -/
noncomputable def lmkNC (env : Env) (t : ℕ) : NCFile :=
  let a := env.psdArr
  { dims := [("time", 1), ("L", a.s1), ("Mu", a.s2), ("K", a.s3)],
    vars := [
      ⟨"PSD_2", .f32, ["L", "Mu", "K"],
        flat3 a.s1 a.s2 a.s3 (fun i j k => a.val t i j k * units_constant)⟩,
      ⟨"time", .f32, ["time"], [env.psdZone.getD t 0]⟩] }

/-- The per-timestep loop: for each `t` below `arr.shape[0]`, first the
flux/PSD file, then the alternate-coordinate file. -/
noncomputable def psdWrites (env : Env) : List (String × NCFile) :=
  (List.range env.psdArr.s0).flatMap fun t =>
    [(fluxPath env t, fluxNC env t), (lmkPath env t, lmkNC env t)]

/-- The scalar time-series file `out1d.nc`: one `time` dimension as long as
the table, and for each header name one 64-bit variable holding the column
labelled by that name (`df[var_str]`, i.e. the column at the name's first
index in the header list). -/
noncomputable def out1dNC (env : Env) (vs : List String) : NCFile :=
  { dims := [("time", (out1dTable env).length)],
    vars := vs.map fun n =>
      ⟨n, .f64, ["time"],
        (out1dTable env).map fun r => r.getD (vs.indexOf n) 0⟩ }

/-- The arguments of the `RU.create_timelist` call: the two index-file paths,
the model name, the per-group file lists, the per-group time coverage and the
start date. -/
structure TimeTriple where
  start : List ℝ
  end_ : List ℝ
  all : List ℝ

/-- The recorded catalog-writer call. -/
structure CatalogCall where
  listFile : String
  timeFile : String
  modelname : String
  patternFiles : List (String × List String)
  times : List (String × TimeTriple)
  startDate : DateTime

/-- How a run ends: Python `True`, Python `False`, or an uncaught
exception. -/
inductive Outcome where
  | ok
  | fail
  | exc
deriving DecidableEq

/-- The observable effects of one `convert_all` run. -/
structure RunResult where
  writes : List (String × NCFile)
  catalog : Option CatalogCall
  outcome : Outcome

/-- Start-date resolution in `convert_all`: a supplied (hence truthy)
`start_date` is used as is, otherwise `get_start_date` runs. -/
def resolvedStart (env : Env) (start_date : Option DateTime) : Option DateTime :=
  match start_date with
  | some d => some d
  | none => get_start_date env

/-- The catalog-writer call of a successful run: paths built by *string
concatenation* `file_dir + modelname + suffix`; times are the zone values
times 24 (days to hours); per-timestep groups get the full list as `start`,
`end` and `all`; whole-run groups collapse `start`/`end` to the first/last
entry, `all` keeping the full list for `out1d` and the single first value for
`perp_grid`. -/
noncomputable def catalogOf (env : Env) (date : DateTime) : CatalogCall :=
  let timesList := env.psdZone.map fun x => x * 24
  { listFile := env.file_dir ++ "VERB-3D" ++ "_list.txt",
    timeFile := env.file_dir ++ "VERB-3D" ++ "_times.txt",
    modelname := "VERB-3D",
    patternFiles := [
      ("OutPSD_Flux", (List.range env.psdArr.s0).map (fluxPath env)),
      ("OutPSD_lmk", (List.range env.psdArr.s0).map (lmkPath env)),
      ("perp_grid", [gridPath env]),
      ("out1d", [out1dPath env])],
    times := [
      ("OutPSD_Flux", ⟨timesList, timesList, timesList⟩),
      ("OutPSD_lmk", ⟨timesList, timesList, timesList⟩),
      ("perp_grid", ⟨[timesList.headD 0], [timesList.getLastD 0], [timesList.headD 0]⟩),
      ("out1d", ⟨[timesList.headD 0], [timesList.getLastD 0], timesList⟩)],
    startDate := date }

/-- `convert_all`: check the three required inputs exist (else return
`False`, nothing written); resolve the start date; write the grid unit, the
2·N per-timestep units and the scalar-series unit in order; then call the
catalog writer and return `True`.  `exc` branches model the uncaught
exceptions of the source (a `ValueError` in `get_start_date`; a missing or
malformed `Variables` header; a table the `df.columns` assignment or the
variable creation would reject; an empty time list hitting
`times_list[0]`). -/
noncomputable def convert_all (env : Env) (start_date : Option DateTime) : RunResult :=
  if env.hasPerpGrid && env.hasPSD && env.hasOut1d then
    match resolvedStart env start_date with
    | none => { writes := [], catalog := none, outcome := .exc }
    | some date =>
      let gridW := (gridPath env, gridNC env)
      let psdW := psdWrites env
      match extractVariables env.out1dLines with
      | none => { writes := gridW :: psdW, catalog := none, outcome := .exc }
      | some vs =>
        if out1dOk env vs then
          let out1dW := (out1dPath env, out1dNC env vs)
          if env.psdZone.isEmpty then
            { writes := gridW :: psdW ++ [out1dW], catalog := none, outcome := .exc }
          else
            { writes := gridW :: psdW ++ [out1dW],
              catalog := some (catalogOf env date), outcome := .ok }
        else { writes := gridW :: psdW, catalog := none, outcome := .exc }
  else { writes := [], catalog := none, outcome := .fail }

/-- The data stored under a variable name in a NetCDF file. -/
def varData (f : NCFile) (n : String) : Option (List ℝ) :=
  ((f.vars.find? fun v => v.name == n).map NCVar.data)

/-- The declared dimension labels of a variable. -/
def varDims (f : NCFile) (n : String) : Option (List String) :=
  ((f.vars.find? fun v => v.name == n).map NCVar.dims)

/-- The storage class of a variable. -/
def varDtype (f : NCFile) (n : String) : Option DType :=
  ((f.vars.find? fun v => v.name == n).map NCVar.dtype)

/-- The file list the catalog call records for a variable group. -/
def groupFiles (c : CatalogCall) (g : String) : Option (List String) :=
  ((c.patternFiles.find? fun p => p.1 == g).map Prod.snd)

/-- The time coverage the catalog call records for a variable group. -/
def groupTimes (c : CatalogCall) (g : String) : Option TimeTriple :=
  ((c.times.find? fun p => p.1 == g).map Prod.snd)

/-- Replace every metadata-resolution input of an environment (both auxiliary
files and their contents), leaving the conversion inputs unchanged. -/
def withMeta (env : Env) (hdb : Bool) (dls : List String) (hrd : Bool)
    (rd : Option DateTime) (hrp : Bool) (rp : Option DateTime) : Env :=
  { env with
    hasDatabaseInfo := hdb, databaseLines := dls,
    hasRorDir := hrd, rorDirStart := rd,
    hasRorParent := hrp, rorParentStart := rp }

/-- A concrete valid run environment: all three inputs present, a 1-timestep
2×2×2 PSD, a two-column `out1d.dat`, no metadata sources. -/
noncomputable def envOK : Env :=
  { file_dir := "/data",
    hasPerpGrid := true, hasPSD := true, hasOut1d := true,
    gridL := ⟨2, 2, 2, fun _ _ _ => 1⟩,
    gridE := ⟨2, 2, 2, fun _ _ _ => 1⟩,
    gridAlphaRad := ⟨2, 2, 2, fun _ _ _ => 1⟩,
    gridPc := ⟨2, 2, 2, fun _ _ _ => 1⟩,
    psdArr := ⟨1, 2, 2, 2, fun _ _ _ _ => 1⟩,
    psdZone := [2],
    out1dLines := ["VERB 1D output", "Variables = \"tgrid\" \"Kp\"", "0.0 2.3"],
    parseFloat := fun _ => 0,
    en2mu := fun _ _ a => a,
    lal2K := fun _ a => a,
    hasDatabaseInfo := false, databaseLines := [],
    hasRorDir := false, rorDirStart := none,
    hasRorParent := false, rorParentStart := none }

/-- `envOK` with the grid file absent. -/
noncomputable def envMissing : Env := { envOK with hasPerpGrid := false }

/-- `envOK` with a directory path that ends in a separator. -/
noncomputable def envSlash : Env := { envOK with file_dir := "data/" }

/-- `envOK` plus a legacy `DatabaseInfo1` holding the start-time line. -/
noncomputable def envLegacy : Env :=
  { envOK with
    hasDatabaseInfo := true,
    databaseLines := ["10  # number of runs", "2015/03/17 06:00  # start_time"] }

/-- `envLegacy` plus a structured `ror_metadata.json` in the directory. -/
noncomputable def envBoth : Env :=
  { envLegacy with hasRorDir := true, rorDirStart := some ⟨2017, 9, 7, 12, 30⟩ }


/-! ## Helper lemmas -/

theorem flatMap_pair_length {α : Type _} (f g : ℕ → α) (n : ℕ) :
    ((List.range n).flatMap fun t => [f t, g t]).length = 2 * n := by
  induction n with
  | zero => rfl
  | succ k ih => simp [List.range_succ, ih, Nat.mul_succ]

theorem psdWrites_length (env : Env) :
    (psdWrites env).length = 2 * env.psdArr.s0 :=
  flatMap_pair_length _ _ _

/-- After the input check and start-date resolution, the write trace always
opens with the grid file followed by the per-timestep files, whatever happens
in the `out1d` block. -/
theorem writes_split (env : Env) (sd : Option DateTime) (d : DateTime)
    (hg : env.hasPerpGrid = true) (hp : env.hasPSD = true)
    (ho : env.hasOut1d = true) (hres : resolvedStart env sd = some d) :
    ∃ tail, (convert_all env sd).writes =
      (gridPath env, gridNC env) :: (psdWrites env ++ tail) := by
  unfold convert_all
  rw [hg, hp, ho, hres]
  cases hV : extractVariables env.out1dLines with
  | none => exact ⟨[], by simp⟩
  | some vs =>
    cases hOk : out1dOk env vs with
    | false => exact ⟨[], by simp [hOk]⟩
    | true =>
      cases hNE : env.psdZone.isEmpty with
      | false => exact ⟨[(out1dPath env, out1dNC env vs)], by simp [hOk, hNE]⟩
      | true => exact ⟨[(out1dPath env, out1dNC env vs)], by simp [hOk, hNE]⟩

/-- The full result of a run in which every stage succeeds. -/
theorem convert_success (env : Env) (sd : Option DateTime) (d : DateTime)
    (vs : List String)
    (hg : env.hasPerpGrid = true) (hp : env.hasPSD = true)
    (ho : env.hasOut1d = true) (hres : resolvedStart env sd = some d)
    (hV : extractVariables env.out1dLines = some vs)
    (hOk : out1dOk env vs = true) (hNE : env.psdZone.isEmpty = false) :
    convert_all env sd =
      { writes := (gridPath env, gridNC env) ::
          (psdWrites env ++ [(out1dPath env, out1dNC env vs)]),
        catalog := some (catalogOf env d),
        outcome := .ok } := by
  unfold convert_all
  rw [hg, hp, ho, hres, hV]
  simp [hOk, hNE]

/-! ## Claims -/

/-- C1: if any of the three required source files is absent, `convert_all`
returns the failure value (`False`), writes no NetCDF file and never calls
the catalog writer (so no index file is created either). -/
theorem convert_all_missing_input_aborts (env : Env) (sd : Option DateTime)
    (h : env.hasPerpGrid = false ∨ env.hasPSD = false ∨ env.hasOut1d = false) :
    convert_all env sd = { writes := [], catalog := none, outcome := .fail } := by
  unfold convert_all
  rcases h with h | h | h <;> simp [h]

/-- C1 witness: a directory missing `perp_grid.plt`. -/
theorem convert_all_missing_input_aborts_witness :
    (envMissing.hasPerpGrid = false ∨ envMissing.hasPSD = false ∨
      envMissing.hasOut1d = false) ∧
    convert_all envMissing none =
      { writes := [], catalog := none, outcome := .fail } :=
  ⟨Or.inl rfl, convert_all_missing_input_aborts envMissing none (Or.inl rfl)⟩

/-- C2: when the PSD array has `N` leading timesteps and the time-zone array
has length `N`, the partitioner emits exactly `2·N` per-timestep output
units, for each `t` one `OutPSD_Flux{t}.nc` then one `OutPSD_lmk{t}.nc` (the
segment of the write trace between the grid file and the rest), and each of
the two files of index `t` has a leading length-1 `time` dimension and a
`time` variable holding `zone[t]`. -/
theorem convert_all_psd_partition (env : Env) (sd : Option DateTime)
    (d : DateTime) (N : ℕ)
    (hg : env.hasPerpGrid = true) (hp : env.hasPSD = true)
    (ho : env.hasOut1d = true) (hres : resolvedStart env sd = some d)
    (hN : env.psdArr.s0 = N) (hZ : env.psdZone.length = N) :
    psdWrites env = (List.range N).flatMap
      (fun t => [(fluxPath env t, fluxNC env t), (lmkPath env t, lmkNC env t)]) ∧
    (psdWrites env).length = 2 * N ∧
    ((convert_all env sd).writes.drop 1).take (2 * N) = psdWrites env ∧
    ∀ t, ∀ ht : t < N,
      (fluxNC env t).dims.head? = some ("time", 1) ∧
      (lmkNC env t).dims.head? = some ("time", 1) ∧
      varData (fluxNC env t) ("time") = some [env.psdZone.getD t 0] ∧
      varData (lmkNC env t) ("time") = some [env.psdZone.getD t 0] ∧
      env.psdZone.getD t 0 = env.psdZone.get ⟨t, hZ ▸ ht⟩ := by
  refine ⟨by unfold psdWrites; rw [hN], by rw [psdWrites_length, hN], ?_, ?_⟩
  · obtain ⟨tail, hw⟩ := writes_split env sd d hg hp ho hres
    have hl : (psdWrites env).length = 2 * N := by rw [psdWrites_length, hN]
    rw [hw, List.drop_one, List.tail_cons, ← hl, List.take_left]
  · intro t ht
    refine ⟨rfl, rfl, rfl, rfl, ?_⟩
    rw [List.getD_eq_getElem _ _ (hZ ▸ ht), List.get_eq_getElem]

/-- C2 witness: the 1-timestep environment. -/
theorem convert_all_psd_partition_witness :
    (envOK.psdArr.s0 = 1 ∧ envOK.psdZone.length = 1 ∧
      resolvedStart envOK (some epochDT) = some epochDT) ∧
    ((convert_all envOK (some epochDT)).writes.drop 1).take (2 * 1) =
      psdWrites envOK :=
  ⟨⟨rfl, rfl, rfl⟩,
    (convert_all_psd_partition envOK (some epochDT) epochDT 1
      rfl rfl rfl rfl rfl rfl).2.2.1⟩

/-- C3: on a successful run the catalog's time coverage is: timestamps are
the zone values times 24; the per-timestep groups list the full per-unit
time list as `start`, `end` and `all`, whose common length is the number of
output units in the group; the whole-run groups collapse `start`/`end` to
the first/last timestamp, `all` keeping the full list for `out1d` and the
single first value for `perp_grid`. -/
theorem convert_all_catalog_times (env : Env) (sd : Option DateTime)
    (d : DateTime) (vs : List String)
    (hg : env.hasPerpGrid = true) (hp : env.hasPSD = true)
    (ho : env.hasOut1d = true) (hres : resolvedStart env sd = some d)
    (hV : extractVariables env.out1dLines = some vs)
    (hOk : out1dOk env vs = true) (hNE : env.psdZone.isEmpty = false)
    (hZ : env.psdZone.length = env.psdArr.s0) :
    (convert_all env sd).catalog = some (catalogOf env d) ∧
    (catalogOf env d).times =
      [("OutPSD_Flux",
         ⟨env.psdZone.map (fun x => x * 24), env.psdZone.map (fun x => x * 24),
          env.psdZone.map (fun x => x * 24)⟩),
       ("OutPSD_lmk",
         ⟨env.psdZone.map (fun x => x * 24), env.psdZone.map (fun x => x * 24),
          env.psdZone.map (fun x => x * 24)⟩),
       ("perp_grid",
         ⟨[(env.psdZone.map (fun x => x * 24)).headD 0],
          [(env.psdZone.map (fun x => x * 24)).getLastD 0],
          [(env.psdZone.map (fun x => x * 24)).headD 0]⟩),
       ("out1d",
         ⟨[(env.psdZone.map (fun x => x * 24)).headD 0],
          [(env.psdZone.map (fun x => x * 24)).getLastD 0],
          env.psdZone.map (fun x => x * 24)⟩)] ∧
    groupFiles (catalogOf env d) ("OutPSD_Flux") =
      some ((List.range env.psdArr.s0).map (fluxPath env)) ∧
    groupFiles (catalogOf env d) ("OutPSD_lmk") =
      some ((List.range env.psdArr.s0).map (lmkPath env)) ∧
    groupTimes (catalogOf env d) ("perp_grid") =
      some ⟨[(env.psdZone.map (fun x => x * 24)).headD 0],
            [(env.psdZone.map (fun x => x * 24)).getLastD 0],
            [(env.psdZone.map (fun x => x * 24)).headD 0]⟩ ∧
    groupTimes (catalogOf env d) ("out1d") =
      some ⟨[(env.psdZone.map (fun x => x * 24)).headD 0],
            [(env.psdZone.map (fun x => x * 24)).getLastD 0],
            env.psdZone.map (fun x => x * 24)⟩ ∧
    (env.psdZone.map (fun x => x * 24)).length =
      ((List.range env.psdArr.s0).map (fluxPath env)).length := by
  refine ⟨?_, rfl, rfl, rfl, rfl, rfl, ?_⟩
  · rw [convert_success env sd d vs hg hp ho hres hV hOk hNE]
  · simp [hZ]

/-- C3 witness: the 1-timestep environment. -/
theorem convert_all_catalog_times_witness :
    (extractVariables envOK.out1dLines = some ["tgrid", "Kp"] ∧
      out1dOk envOK ["tgrid", "Kp"] = true ∧
      envOK.psdZone.isEmpty = false ∧ envOK.psdZone.length = envOK.psdArr.s0) ∧
    (convert_all envOK (some epochDT)).catalog = some (catalogOf envOK epochDT) :=
  ⟨⟨rfl, rfl, rfl, rfl⟩,
    (convert_all_catalog_times envOK (some epochDT) epochDT ["tgrid", "Kp"]
      rfl rfl rfl rfl rfl rfl rfl rfl).1⟩

/-- C4: start-date resolution precedence.  A legacy `DatabaseInfo1` whose
scan produces a timestamp yields that timestamp when no structured metadata
exists; a structured `ror_metadata.json` with a `simulationStartTime` value
overrides the legacy result when both are present (directory before parent);
with no source at all the result is the fixed epoch default
`1970-01-01T00:00`. -/
theorem get_start_date_precedence (env : Env) (d m : DateTime) :
    (env.hasDatabaseInfo = true → env.hasRorDir = false →
      env.hasRorParent = false →
      scanDatabase env.databaseLines epochDT = some d →
      get_start_date env = some d) ∧
    (env.hasDatabaseInfo = true →
      scanDatabase env.databaseLines epochDT = some d →
      env.hasRorDir = true → env.rorDirStart = some m →
      get_start_date env = some m) ∧
    (env.hasDatabaseInfo = false → env.hasRorDir = false →
      env.hasRorParent = true → env.rorParentStart = some m →
      get_start_date env = some m) ∧
    (env.hasDatabaseInfo = false → env.hasRorDir = false →
      env.hasRorParent = false → get_start_date env = some epochDT) := by
  refine ⟨?_, ?_, ?_, ?_⟩ <;> intros <;> unfold get_start_date <;> simp [*]

/-- C4 witness: the spec's three scenarios, on the exact legacy line
`2015/03/17 06:00  # start_time`. -/
theorem get_start_date_precedence_witness :
    (scanDatabase envLegacy.databaseLines epochDT = some ⟨2015, 3, 17, 6, 0⟩ ∧
      get_start_date envLegacy = some ⟨2015, 3, 17, 6, 0⟩) ∧
    (envBoth.rorDirStart = some ⟨2017, 9, 7, 12, 30⟩ ∧
      get_start_date envBoth = some ⟨2017, 9, 7, 12, 30⟩) ∧
    (envOK.hasDatabaseInfo = false ∧ get_start_date envOK = some epochDT) :=
  ⟨⟨rfl, (get_start_date_precedence envLegacy ⟨2015, 3, 17, 6, 0⟩ epochDT).1
      rfl rfl rfl rfl⟩,
   ⟨rfl, (get_start_date_precedence envBoth ⟨2015, 3, 17, 6, 0⟩
      ⟨2017, 9, 7, 12, 30⟩).2.1 rfl rfl rfl rfl⟩,
   ⟨rfl, (get_start_date_precedence envOK epochDT epochDT).2.2.2 rfl rfl rfl⟩⟩

/-- C5: every per-timestep flux file carries `PSD`, the raw density slice
scaled by the fixed constant `1/(3·10⁷)`, and `Flux`, the raw density slice
times the square of the grid's `Pc`, both declared as 32-bit floats; the
file appears in the write trace of the run. -/
theorem convert_all_flux_values (env : Env) (sd : Option DateTime)
    (d : DateTime) (t : ℕ)
    (hg : env.hasPerpGrid = true) (hp : env.hasPSD = true)
    (ho : env.hasOut1d = true) (hres : resolvedStart env sd = some d)
    (ht : t < env.psdArr.s0) :
    (fluxPath env t, fluxNC env t) ∈ (convert_all env sd).writes ∧
    varData (fluxNC env t) ("PSD") =
      some (flat3 env.psdArr.s1 env.psdArr.s2 env.psdArr.s3
        (fun i j k => env.psdArr.val t i j k * (1 / (3 * 10 ^ 7)))) ∧
    varData (fluxNC env t) ("Flux") =
      some (flat3 env.psdArr.s1 env.psdArr.s2 env.psdArr.s3
        (fun i j k => env.psdArr.val t i j k * env.gridPc.val i j k ^ 2)) ∧
    varDtype (fluxNC env t) ("PSD") = some .f32 ∧
    varDtype (fluxNC env t) ("Flux") = some .f32 := by
  refine ⟨?_, rfl, rfl, rfl, rfl⟩
  obtain ⟨tail, hw⟩ := writes_split env sd d hg hp ho hres
  rw [hw]
  apply List.mem_cons_of_mem
  apply List.mem_append_left
  unfold psdWrites
  exact List.mem_flatMap.mpr ⟨t, List.mem_range.mpr ht, by simp⟩

/-- C5 witness: timestep 0 of the 1-timestep environment. -/
theorem convert_all_flux_values_witness :
    0 < envOK.psdArr.s0 ∧
    (fluxPath envOK 0, fluxNC envOK 0) ∈
      (convert_all envOK (some epochDT)).writes :=
  ⟨by decide,
    (convert_all_flux_values envOK (some epochDT) epochDT 0
      rfl rfl rfl rfl (by decide)).1⟩

/-- C6: the `PSD_2` array of `OutPSD_lmk{t}.nc` holds exactly the same
values as the `PSD` array of `OutPSD_Flux{t}.nc` (the same unit-converted
density slice), the only difference being the declared dimension labels
(`L, Mu, K` against `L, E, Alpha`), and both files carry the same `time`
value. -/
theorem lmk_psd_relabel (env : Env) (t : ℕ) :
    varData (lmkNC env t) ("PSD_2") = varData (fluxNC env t) ("PSD") ∧
    varDims (lmkNC env t) ("PSD_2") = some ["L", "Mu", "K"] ∧
    varDims (fluxNC env t) ("PSD") = some ["L", "E", "Alpha"] ∧
    varData (lmkNC env t) ("time") = varData (fluxNC env t) ("time") ∧
    varDtype (lmkNC env t) ("PSD_2") = some .f32 ∧
    varDtype (fluxNC env t) ("PSD") = some .f32 :=
  ⟨rfl, rfl, rfl, rfl, rfl, rfl⟩

/-- C7: the grid file is the first file written; its stored `Alpha` values
are the radian source values times `180/π` exactly, and the derived `Mu` and
`K` are computed by the external conversion functions from the retained
radian angular axis, not from the stored degree values. -/
theorem grid_degree_conversion (env : Env) (sd : Option DateTime)
    (d : DateTime)
    (hg : env.hasPerpGrid = true) (hp : env.hasPSD = true)
    (ho : env.hasOut1d = true) (hres : resolvedStart env sd = some d) :
    (convert_all env sd).writes.head? = some (gridPath env, gridNC env) ∧
    varData (gridNC env) ("Alpha") =
      some (flat3 env.gridL.s1 env.gridL.s2 env.gridL.s3
        (fun i j k => env.gridAlphaRad.val i j k * (180 / Real.pi))) ∧
    varData (gridNC env) ("Mu") =
      some (flat3 env.gridL.s1 env.gridL.s2 env.gridL.s3
        (env.en2mu env.gridE env.gridL env.gridAlphaRad).val) ∧
    varData (gridNC env) ("K") =
      some (flat3 env.gridL.s1 env.gridL.s2 env.gridL.s3
        (env.lal2K env.gridL env.gridAlphaRad).val) ∧
    varDtype (gridNC env) ("Alpha") = some .f32 := by
  refine ⟨?_, rfl, rfl, rfl, rfl⟩
  obtain ⟨tail, hw⟩ := writes_split env sd d hg hp ho hres
  rw [hw]
  rfl

/-- C7 witness. -/
theorem grid_degree_conversion_witness :
    envOK.hasPerpGrid = true ∧
    (convert_all envOK (some epochDT)).writes.head? =
      some (gridPath envOK, gridNC envOK) :=
  ⟨rfl, (grid_degree_conversion envOK (some epochDT) epochDT rfl rfl rfl rfl).1⟩

/-- C8: the scalar time-series importer writes one unit whose `time`
dimension is as long as the data table (the input lines with the first two
skipped as a title block and blank lines removed), and whose variables are
the extracted quoted header names, each a 64-bit float column of the table
labelled by its name. -/
theorem out1d_import (env : Env) (sd : Option DateTime) (d : DateTime)
    (vs : List String)
    (hg : env.hasPerpGrid = true) (hp : env.hasPSD = true)
    (ho : env.hasOut1d = true) (hres : resolvedStart env sd = some d)
    (hV : extractVariables env.out1dLines = some vs)
    (hOk : out1dOk env vs = true) :
    (out1dPath env, out1dNC env vs) ∈ (convert_all env sd).writes ∧
    (out1dNC env vs).dims = [("time", (out1dTable env).length)] ∧
    (out1dNC env vs).vars = vs.map (fun n =>
      ⟨n, .f64, ["time"],
        (out1dTable env).map fun r => r.getD (vs.indexOf n) 0⟩) ∧
    (out1dTable env).length =
      ((env.out1dLines.drop 2).filter
        (fun l => !(pyStrip l.data).isEmpty)).length := by
  refine ⟨?_, rfl, rfl, by simp [out1dTable]⟩
  unfold convert_all
  rw [hg, hp, ho, hres, hV]
  cases hNE : env.psdZone.isEmpty <;> simp [hOk, hNE]

/-- C8 witness: the two-column `out1d.dat` of the concrete environment. -/
theorem out1d_import_witness :
    (extractVariables envOK.out1dLines = some ["tgrid", "Kp"] ∧
      out1dOk envOK ["tgrid", "Kp"] = true) ∧
    (out1dPath envOK, out1dNC envOK ["tgrid", "Kp"]) ∈
      (convert_all envOK (some epochDT)).writes :=
  ⟨⟨rfl, rfl⟩,
    (out1d_import envOK (some epochDT) epochDT ["tgrid", "Kp"]
      rfl rfl rfl rfl rfl rfl).1⟩

/-- C9 counterexample: for the directory `/data` (no trailing separator) the
run succeeds and the two catalog index files get the fixed names, but their
paths are `file_dir + name` by plain string concatenation —
`/dataVERB-3D_list.txt` and `/dataVERB-3D_times.txt` — which are *not*
inside the source directory, while the NetCDF units (built with
`os.path.join`) are. -/
theorem catalog_index_files_outside_dir :
    (convert_all envOK (some epochDT)).outcome = Outcome.ok ∧
    ((convert_all envOK (some epochDT)).catalog.map fun c => c.listFile) =
      some ("/dataVERB-3D_list.txt") ∧
    ((convert_all envOK (some epochDT)).catalog.map fun c => c.timeFile) =
      some ("/dataVERB-3D_times.txt") ∧
    insideDir envOK.file_dir ("/dataVERB-3D_list.txt") = false ∧
    insideDir envOK.file_dir ("/dataVERB-3D_times.txt") = false ∧
    insideDir envOK.file_dir (gridPath envOK) = true :=
  ⟨rfl, rfl, rfl, rfl, rfl, rfl⟩

/-- C9 amended: on every successful run the catalog writer is called with
exactly the two index-file paths `file_dir ++ "VERB-3D_list.txt"` and
`file_dir ++ "VERB-3D_times.txt"` (plain concatenation); these lie inside
the source directory exactly when `file_dir` ends with a path separator. -/
theorem catalog_index_files_paths (env : Env) (sd : Option DateTime)
    (d : DateTime) (vs : List String)
    (hg : env.hasPerpGrid = true) (hp : env.hasPSD = true)
    (ho : env.hasOut1d = true) (hres : resolvedStart env sd = some d)
    (hV : extractVariables env.out1dLines = some vs)
    (hOk : out1dOk env vs = true) (hNE : env.psdZone.isEmpty = false) :
    (convert_all env sd).catalog = some (catalogOf env d) ∧
    (catalogOf env d).listFile = env.file_dir ++ "VERB-3D" ++ "_list.txt" ∧
    (catalogOf env d).timeFile = env.file_dir ++ "VERB-3D" ++ "_times.txt" ∧
    (env.file_dir.data.getLast? = some '/' →
      insideDir env.file_dir ((catalogOf env d).listFile) = true ∧
      insideDir env.file_dir ((catalogOf env d).timeFile) = true) := by
  refine ⟨?_, rfl, rfl, ?_⟩
  · rw [convert_success env sd d vs hg hp ho hres hV hOk hNE]
  · intro hSl
    constructor <;>
      · show insideDir _ _ = true
        unfold insideDir
        rw [if_pos hSl, List.isPrefixOf_iff_prefix]
        simp [catalogOf]

/-- C9 witness: with a trailing separator on the directory the index files
do land inside it. -/
theorem catalog_index_files_paths_witness :
    (envSlash.file_dir.data.getLast? = some '/' ∧
      extractVariables envSlash.out1dLines = some ["tgrid", "Kp"]) ∧
    (catalogOf envSlash epochDT).listFile = "data/VERB-3D_list.txt" ∧
    insideDir envSlash.file_dir ((catalogOf envSlash epochDT).listFile) = true :=
  ⟨⟨rfl, rfl⟩,
    (catalog_index_files_paths envSlash (some epochDT) epochDT ["tgrid", "Kp"]
      rfl rfl rfl rfl rfl rfl rfl).2.1,
    ((catalog_index_files_paths envSlash (some epochDT) epochDT ["tgrid", "Kp"]
      rfl rfl rfl rfl rfl rfl rfl).2.2.2 rfl).1⟩

/-- Helper: whenever the catalog writer is called, it receives exactly the
resolved start date. -/
theorem catalog_startDate (env : Env) (sd : Option DateTime) (d : DateTime)
    (hres : resolvedStart env sd = some d) (c : CatalogCall)
    (hc : (convert_all env sd).catalog = some c) : c.startDate = d := by
  unfold convert_all at hc
  rw [hres] at hc
  by_cases hB : (env.hasPerpGrid && env.hasPSD && env.hasOut1d) = true
  · rw [if_pos hB] at hc
    cases hV : extractVariables env.out1dLines with
    | none => simp [hV] at hc
    | some vs =>
      by_cases hOk : out1dOk env vs = true
      · cases hNE : env.psdZone.isEmpty with
        | true => simp [hV, hOk, hNE] at hc
        | false =>
          simp [hV, hOk, hNE] at hc
          subst hc
          rfl
      · simp [hV, hOk] at hc
  · rw [if_neg hB] at hc
    simp at hc

/-- C10: a supplied (truthy) `start_date` bypasses metadata resolution
entirely — the run is unchanged under any replacement of the metadata
sources — and that date is passed unchanged to the catalog writer;
`get_start_date` matters only when the argument is absent, in which case the
run equals the run with its result supplied. -/
theorem start_date_bypass (env : Env) (d : DateTime) (hdb : Bool)
    (dls : List String) (hrd : Bool) (rd : Option DateTime) (hrp : Bool)
    (rp : Option DateTime) :
    convert_all (withMeta env hdb dls hrd rd hrp rp) (some d) =
      convert_all env (some d) ∧
    (∀ c, (convert_all env (some d)).catalog = some c → c.startDate = d) ∧
    (∀ d', get_start_date env = some d' →
      convert_all env none = convert_all env (some d')) := by
  refine ⟨rfl, fun c hc => catalog_startDate env (some d) d rfl c hc, ?_⟩
  intro d' h
  have he : resolvedStart env none = resolvedStart env (some d') := by
    simp [resolvedStart, h]
  unfold convert_all
  rw [he]

/-- C10 witness: replacing the metadata sources with a legacy file holding a
different date does not change a run called with an explicit start date, and
an omitted start date equals supplying the resolver's result. -/
theorem start_date_bypass_witness :
    get_start_date envOK = some epochDT ∧
    convert_all
        (withMeta envOK true ["2031/01/01 00:00  # start_time"] false none
          false none) (some epochDT) =
      convert_all envOK (some epochDT) ∧
    convert_all envOK none = convert_all envOK (some epochDT) :=
  ⟨rfl,
    (start_date_bypass envOK epochDT true ["2031/01/01 00:00  # start_time"]
      false none false none).1,
    (start_date_bypass envOK epochDT true ["2031/01/01 00:00  # start_time"]
      false none false none).2.2 epochDT rfl⟩

end Verb3D
